import Mathlib

/-!
Shallow embedding of the offline support subsystem of the leave-portal
desktop client (`src-tauri/src/commands/offline.rs`), together with the
connection-management context of `src-tauri/src/database.rs`.

The subsystem is two stores in one SQLite file: a response cache
(`cache_entries`, keyed by `key`) and an outbound queue (`offline_queue`,
keyed by `id`, ordered by `created_at`).  Each Tauri command opens the
database via `get_offline_db` and then runs one SQL statement.

Modelling choices, all at the boundary to external crates (rusqlite,
serde_json, chrono), which are not part of this repository:

* SQLite tables are lists of rows holding exactly the TEXT/NULL column
  values the schema declares (`CacheRow`, `QueueRow`).  `WHERE key = ?`
  on a primary-key column is `List.find?`/`List.filter` on that column;
  `INSERT OR REPLACE` deletes conflicting rows and appends; a plain
  `INSERT` against an existing primary key fails with a constraint
  error; `ORDER BY created_at ASC` is a stable sort by the TEXT value.
* serde_json serialization of `serde_json::Value` payloads is a pair of
  oracle parameters `jsonSer : JVal → Option String` /
  `jsonDeser : String → Option JVal` over an abstract value type `JVal`;
  likewise header maps are `List (String × String)` with
  `serHeaders`/`deserHeaders` oracles.  `none` models the `Err`/failed
  case of the library call.
* chrono's `DateTime::parse_from_rfc3339` is an oracle
  `parseRfc3339 : String → Option Int` and `Utc::now()` is an explicit
  `now : Int` argument; `expires < Utc::now()` is `<` on the parsed
  values.
* `get_offline_db` opens a fresh connection on every call; the `World`
  state records how many connections have been opened so far, and the
  returned handle is the index of this open.  I/O failure of the open
  itself is outside the model (no claim depends on it).
-/

namespace LeavePortal.Offline

/-- Structure `CacheEntry` from offline.rs: the structured value handed across the
Tauri command boundary.  `JVal` stands for `serde_json::Value`. -/
structure CacheEntry (JVal : Type) where
  key : String
  method : String
  path : String
  response : JVal
  timestamp : String
  expires_at : Option String
  deriving Repr, DecidableEq

/-- Structure `QueuedRequest` from offline.rs.  `headers` is the optional
`HashMap<String, String>`, modelled as an association list. -/
structure QueuedRequest (JVal : Type) where
  id : String
  method : String
  path : String
  payload : JVal
  headers : Option (List (String × String))
  created_at : String
  deriving Repr, DecidableEq

/-- One row of the `cache_entries` table: `response` is the serialized
TEXT column, `expires_at` the nullable TEXT column. -/
structure CacheRow where
  key : String
  method : String
  path : String
  response : String
  timestamp : String
  expires_at : Option String
  deriving Repr, DecidableEq

/-- One row of the `offline_queue` table: `payload` is serialized TEXT,
`headers` nullable TEXT. -/
structure QueueRow where
  id : String
  method : String
  path : String
  payload : String
  headers : Option String
  created_at : String
  deriving Repr, DecidableEq

/-- The two tables of the offline-cache.db file. -/
structure OfflineDb where
  cache : List CacheRow
  queue : List QueueRow
  deriving Repr, DecidableEq

/-- Observable state threaded through the commands: the database file
plus the number of SQLite connections opened so far by `get_offline_db`
(each `Connection::open` call in the source opens a new one). -/
structure World where
  db : OfflineDb
  openConns : Nat
  deriving Repr, DecidableEq

/-- The empty database in a fresh process: both tables empty, no
connection opened yet. -/
def initWorld : World := { db := { cache := [], queue := [] }, openConns := 0 }

/-- Function `get_offline_db` from offline.rs: opens a NEW SQLite connection to
offline-cache.db (`Connection::open`), enables WAL and creates the
tables/indexes if absent (a no-op on the modelled table state).  The
returned `Nat` is the handle of the freshly opened connection; the
connection counter increases by one on every call. -/
def get_offline_db (w : World) : Nat × World :=
  (w.openConns, { w with openConns := w.openConns + 1 })

/-- rusqlite's `Error::InvalidColumnType(idx, name, Type::Text).to_string()`,
the error produced in the row-mapping closures when a serialized column
fails to deserialize. -/
def invalidColumnTypeMsg (idx : Nat) (name : String) : String :=
  "Invalid column type Text at index: " ++ toString idx ++ ", name: " ++ name

/-- SQLite's error text for a primary-key violation on `offline_queue`. -/
def uniqueConstraintMsg : String := "UNIQUE constraint failed: offline_queue.id"

/-- Command `offline_get_cache_entry` from offline.rs.  Opens a connection,
selects the row for `key`, deserializes `response` (an
`InvalidColumnType` error if that fails), then lazily enforces expiry:
if `expires_at` is present, parses as RFC3339 and is strictly before
`now`, the row is deleted and the entry reported absent.  An absent row
and an unparseable `expires_at` are not errors. -/
def offline_get_cache_entry {JVal : Type} (jsonDeser : String → Option JVal)
    (parseRfc3339 : String → Option Int) (now : Int)
    (key : String) (w : World) : Except String (Option (CacheEntry JVal)) × World :=
  let (_conn, w) := get_offline_db w
  match w.db.cache.find? (fun r => r.key == key) with
  | none => (Except.ok none, w)
  | some row =>
    match jsonDeser row.response with
    | none => (Except.error (invalidColumnTypeMsg 3 "response"), w)
    | some response =>
      let entry : CacheEntry JVal :=
        { key := row.key, method := row.method, path := row.path
          response := response, timestamp := row.timestamp
          expires_at := row.expires_at }
      match entry.expires_at with
      | some expiresAt =>
        match parseRfc3339 expiresAt with
        | some expires =>
          if expires < now then
            (Except.ok none,
              { w with db := { w.db with cache := w.db.cache.filter (fun r => r.key != key) } })
          else
            (Except.ok (some entry), w)
        | none => (Except.ok (some entry), w)
      | none => (Except.ok (some entry), w)

/-- Statement `INSERT OR REPLACE INTO cache_entries`: any row with the same
primary key is removed and the new row inserted. -/
def insertOrReplaceCache (cache : List CacheRow) (row : CacheRow) : List CacheRow :=
  cache.filter (fun r => r.key != row.key) ++ [row]

/-- Command `offline_set_cache_entry` from offline.rs: serializes `response`
(failure is an error before any write) and upserts the row. -/
def offline_set_cache_entry {JVal : Type} (jsonSer : JVal → Option String)
    (entry : CacheEntry JVal) (w : World) : Except String Unit × World :=
  let (_conn, w) := get_offline_db w
  match jsonSer entry.response with
  | none => (Except.error ("Failed to serialize response"), w)
  | some response_str =>
    let row : CacheRow :=
      { key := entry.key, method := entry.method, path := entry.path
        response := response_str, timestamp := entry.timestamp
        expires_at := entry.expires_at }
    (Except.ok (), { w with db := { w.db with cache := insertOrReplaceCache w.db.cache row } })

/-- Command `offline_clear_cache_entry` from offline.rs: `DELETE FROM
cache_entries WHERE key = ?`; deleting an absent key succeeds. -/
def offline_clear_cache_entry (key : String) (w : World) : Except String Unit × World :=
  let (_conn, w) := get_offline_db w
  (Except.ok (), { w with db := { w.db with cache := w.db.cache.filter (fun r => r.key != key) } })

/-- Command `offline_clear_all_cache` from offline.rs: `DELETE FROM cache_entries`. -/
def offline_clear_all_cache (w : World) : Except String Unit × World :=
  let (_conn, w) := get_offline_db w
  (Except.ok (), { w with db := { w.db with cache := [] } })

/-- Command `offline_enqueue_request` from offline.rs: serializes the payload
(failure is an error), serializes the headers with failures silently
mapped to NULL (`.and_then(|h| serde_json::to_string(h).ok())`), then
runs a plain `INSERT` — a duplicate `id` violates the primary key and
surfaces as an error, leaving the table unchanged. -/
def offline_enqueue_request {JVal : Type} (jsonSer : JVal → Option String)
    (serHeaders : List (String × String) → Option String)
    (request : QueuedRequest JVal) (w : World) : Except String Unit × World :=
  let (_conn, w) := get_offline_db w
  match jsonSer request.payload with
  | none => (Except.error ("Failed to serialize payload"), w)
  | some payload_str =>
    let headers_str := request.headers.bind (fun h => serHeaders h)
    if w.db.queue.any (fun r => r.id == request.id) then
      (Except.error uniqueConstraintMsg, w)
    else
      (Except.ok (),
        { w with db := { w.db with queue := w.db.queue ++
            [{ id := request.id, method := request.method, path := request.path
               payload := payload_str, headers := headers_str
               created_at := request.created_at }] } })

/-- The row-mapping closure of `offline_get_queued_requests`: a payload
that fails to deserialize is an `InvalidColumnType` error for the row; a
headers TEXT that fails to deserialize is silently `None`
(`.and_then(|s| serde_json::from_str(..).ok())`). -/
def rowToRequest {JVal : Type} (jsonDeser : String → Option JVal)
    (deserHeaders : String → Option (List (String × String)))
    (row : QueueRow) : Except String (QueuedRequest JVal) :=
  match jsonDeser row.payload with
  | none => Except.error (invalidColumnTypeMsg 3 "payload")
  | some payload =>
    Except.ok
      { id := row.id, method := row.method, path := row.path
        payload := payload
        headers := row.headers.bind (fun s => deserHeaders s)
        created_at := row.created_at }

/-- The collection loop of `offline_get_queued_requests`
(`requests.push(row.map_err(|e| e.to_string())?)`): the first row error
aborts the whole listing. -/
def collectRows {JVal : Type} (jsonDeser : String → Option JVal)
    (deserHeaders : String → Option (List (String × String))) :
    List QueueRow → Except String (List (QueuedRequest JVal))
  | [] => Except.ok []
  | r :: rs =>
    match rowToRequest jsonDeser deserHeaders r with
    | Except.error e => Except.error e
    | Except.ok q =>
      match collectRows jsonDeser deserHeaders rs with
      | Except.error e => Except.error e
      | Except.ok qs => Except.ok (q :: qs)

/-- SQLite's BINARY collation on TEXT values: lexicographic comparison
of the code points (equivalently, of the UTF-8 bytes, since UTF-8
preserves code-point order).  Stated on `String.data` so the comparison
is computable by the kernel. -/
def textLe (a b : String) : Prop := a.data ≤ b.data

/-- Strict version of `textLe`. -/
def textLt (a b : String) : Prop := a.data < b.data

/-- Clause `ORDER BY created_at ASC` compares the TEXT column values. -/
def rleQ : QueueRow → QueueRow → Prop := fun a b => textLe a.created_at b.created_at

instance : DecidableRel rleQ := fun a b =>
  inferInstanceAs (Decidable (a.created_at.data ≤ b.created_at.data))

instance : IsTotal QueueRow rleQ :=
  ⟨fun a b => le_total a.created_at.data b.created_at.data⟩

instance : IsTrans QueueRow rleQ := ⟨fun _ _ _ h h' => le_trans h h'⟩

/-- Command `offline_get_queued_requests` from offline.rs: selects all queue
rows ordered by `created_at` ascending and maps each row; the first
row-mapping error fails the whole call.  The table is not modified. -/
def offline_get_queued_requests {JVal : Type} (jsonDeser : String → Option JVal)
    (deserHeaders : String → Option (List (String × String)))
    (w : World) : Except String (List (QueuedRequest JVal)) × World :=
  let (_conn, w) := get_offline_db w
  (collectRows jsonDeser deserHeaders (w.db.queue.insertionSort rleQ), w)

/-- Command `offline_dequeue_request` from offline.rs: `DELETE FROM
offline_queue WHERE id = ?`; deleting an absent id succeeds. -/
def offline_dequeue_request (id : String) (w : World) : Except String Unit × World :=
  let (_conn, w) := get_offline_db w
  (Except.ok (), { w with db := { w.db with queue := w.db.queue.filter (fun r => r.id != id) } })

/-- Command `offline_clear_queue` from offline.rs: `DELETE FROM offline_queue`. -/
def offline_clear_queue (w : World) : Except String Unit × World :=
  let (_conn, w) := get_offline_db w
  (Except.ok (), { w with db := { w.db with queue := [] } })

/-- Worlds reachable from the fresh initial state by any sequence of the
Tauri commands of offline.rs, with arbitrary arguments and arbitrary
serialization/time oracles. -/
inductive Reachable : World → Prop where
  | init : Reachable initWorld
  | get_cache {JVal : Type} (jsonDeser : String → Option JVal)
      (parseRfc3339 : String → Option Int) (now : Int) (key : String)
      {w : World} : Reachable w →
      Reachable (offline_get_cache_entry jsonDeser parseRfc3339 now key w).2
  | set_cache {JVal : Type} (jsonSer : JVal → Option String)
      (entry : CacheEntry JVal) {w : World} : Reachable w →
      Reachable (offline_set_cache_entry jsonSer entry w).2
  | clear_cache (key : String) {w : World} : Reachable w →
      Reachable (offline_clear_cache_entry key w).2
  | clear_all_cache {w : World} : Reachable w →
      Reachable (offline_clear_all_cache w).2
  | enqueue {JVal : Type} (jsonSer : JVal → Option String)
      (serHeaders : List (String × String) → Option String)
      (request : QueuedRequest JVal) {w : World} : Reachable w →
      Reachable (offline_enqueue_request jsonSer serHeaders request w).2
  | get_queued {JVal : Type} (jsonDeser : String → Option JVal)
      (deserHeaders : String → Option (List (String × String)))
      {w : World} : Reachable w →
      Reachable (offline_get_queued_requests jsonDeser deserHeaders w).2
  | dequeue (id : String) {w : World} : Reachable w →
      Reachable (offline_dequeue_request id w).2
  | clear_queue {w : World} : Reachable w →
      Reachable (offline_clear_queue w).2

/-! Concrete serialization/time oracles and database states, used to
evaluate the commands on explicit inputs. -/

/-- Serializer for the toy payload type `Nat`: decimal text, never fails. -/
def natSer : Nat → Option String := fun n => some (toString n)

/-- Deserializer used in witnesses: accepts exactly the TEXT produced by
`natSer` for the payload 5. -/
def natParse : String → Option Nat := fun s => if s == "5" then some 5 else none

/-- Deserializer that accepts every TEXT value (as the payload 0). -/
def natDeser : String → Option Nat := fun _ => some 0

/-- Deserializer that accepts exactly the TEXT value "good". -/
def goodDeser : String → Option Nat := fun s => if s == "good" then some 7 else none

/-- RFC3339 oracle that fails on every string (unparseable timestamps). -/
def noParse : String → Option Int := fun _ => none

/-- RFC3339 oracle that parses every string as time 0. -/
def zeroParse : String → Option Int := fun _ => some 0

/-- Header serializer that fails on every map. -/
def noHeadersSer : List (String × String) → Option String := fun _ => none

/-- Header serializer that always succeeds. -/
def someHeadersSer : List (String × String) → Option String := fun _ => some ("hmap")

/-- Header deserializer that fails on every TEXT value. -/
def noHeadersDeser : String → Option (List (String × String)) := fun _ => none

/-- A cache row whose `expires_at` is present (parsed as past time by
`zeroParse` at `now = 1`). -/
def c2Row : CacheRow :=
  { key := "k", method := "GET", path := "/p", response := "resp"
    timestamp := "2024-01-01T00:00:00Z", expires_at := some ("2020-01-01T00:00:00Z") }

/-- A world whose cache holds exactly `c2Row`. -/
def c2World : World := { db := { cache := [c2Row], queue := [] }, openConns := 0 }

/-- A queue row whose payload TEXT is rejected by `goodDeser`. -/
def badRow : QueueRow :=
  { id := "q1", method := "POST", path := "/api/leaves", payload := "bad"
    headers := none, created_at := "2024-01-01T00:00:00Z" }

/-- A queue row whose payload TEXT is accepted by `goodDeser`. -/
def goodRow : QueueRow :=
  { id := "q2", method := "POST", path := "/api/leaves", payload := "good"
    headers := none, created_at := "2024-01-01T00:00:05Z" }

/-- A world whose queue holds one corrupt and one well-formed row. -/
def c1World : World := { db := { cache := [], queue := [badRow, goodRow] }, openConns := 0 }

/-- The request the well-formed row `goodRow` denotes under `goodDeser`. -/
def goodRequest : QueuedRequest Nat :=
  { id := "q2", method := "POST", path := "/api/leaves", payload := 7
    headers := none, created_at := "2024-01-01T00:00:05Z" }

/-- A world whose queue holds exactly `goodRow`. -/
def qWorld : World := { db := { cache := [], queue := [goodRow] }, openConns := 0 }

/-- A queue row carrying a headers TEXT column. -/
def headersRow : QueueRow :=
  { id := "q3", method := "PUT", path := "/api/x", payload := "good"
    headers := some ("not-a-map"), created_at := "2024-01-02T00:00:00Z" }

/-- A world whose queue holds exactly `headersRow`. -/
def headersWorld : World := { db := { cache := [], queue := [headersRow] }, openConns := 0 }

/-- A cache entry without expiry, with payload 5. -/
def c3Entry : CacheEntry Nat :=
  { key := "ck", method := "GET", path := "/p", response := 5
    timestamp := "2024-01-01T00:00:00Z", expires_at := none }

/-- A request whose id collides with `goodRow`'s id. -/
def c5Request : QueuedRequest Nat :=
  { id := "q2", method := "POST", path := "/api/leaves", payload := 3
    headers := none, created_at := "2024-02-02T00:00:00Z" }

/-- A cache row whose `expires_at` TEXT is not RFC3339. -/
def c9Row : CacheRow :=
  { key := "k9", method := "GET", path := "/p9", response := "resp9"
    timestamp := "2024-01-01T00:00:00Z", expires_at := some ("garbage") }

/-- A world whose cache holds exactly `c9Row`. -/
def c9World : World := { db := { cache := [c9Row], queue := [] }, openConns := 0 }

/-- First write to the key "dup". -/
def c7Entry1 : CacheEntry Nat :=
  { key := "dup", method := "GET", path := "/a", response := 1
    timestamp := "t1", expires_at := none }

/-- Second write to the key "dup". -/
def c7Entry2 : CacheEntry Nat :=
  { key := "dup", method := "GET", path := "/b", response := 2
    timestamp := "t2", expires_at := none }

/-- A request whose headers map is present (and rejected by
`noHeadersSer`). -/
def c10Request : QueuedRequest Nat :=
  { id := "q10", method := "PATCH", path := "/api/y", payload := 4
    headers := some [("a", "b")], created_at := "2024-03-01T00:00:00Z" }

/-! Helper lemmas about the row-level SQL operations. -/

/-- A `WHERE key = ?` lookup finds nothing among the rows kept by a
`DELETE ... WHERE key = ?` for the same key. -/
theorem find?_filter_ne_none (cache : List CacheRow) (key : String) :
    (cache.filter (fun r => r.key != key)).find? (fun r => r.key == key) = none := by
  rw [List.find?_eq_none]
  intro x hx
  have hkeep := (List.mem_filter.mp hx).2
  simp only [bne_iff_ne, ne_eq] at hkeep
  simp [hkeep]

/-- Lookup by `find?` skips a prefix in which nothing matches. -/
theorem find?_append_left_none {α : Type} (p : α → Bool) {l₁ : List α} (l₂ : List α)
    (h : l₁.find? p = none) : (l₁ ++ l₂).find? p = l₂.find? p := by
  rw [List.find?_append, h]
  rfl

/-- After an upsert, looking the key up finds exactly the new row. -/
theorem find?_insertOrReplaceCache (cache : List CacheRow) (row : CacheRow) :
    (insertOrReplaceCache cache row).find? (fun r => r.key == row.key) = some row := by
  unfold insertOrReplaceCache
  rw [find?_append_left_none _ _ (find?_filter_ne_none cache row.key)]
  simp

/-- C2: reading a cache entry whose stored `expires_at` parses as a time
strictly before `now` reports the entry absent (`Ok(None)`) and deletes
its row, so a direct row check on the resulting state finds no row for
the key.  (The row's serialized response must deserialize — as every row
written by `offline_set_cache_entry` does; a corrupt response errors out
before the expiry check is reached.) -/
theorem c2_expired_get_deletes {JVal : Type}
    (jsonDeser : String → Option JVal) (parseRfc3339 : String → Option Int)
    (now t : Int) (key s : String) (w : World) (row : CacheRow) (v : JVal)
    (hrow : w.db.cache.find? (fun r => r.key == key) = some row)
    (hresp : jsonDeser row.response = some v)
    (hexp : row.expires_at = some s)
    (hparse : parseRfc3339 s = some t)
    (hpast : t < now) :
    (offline_get_cache_entry jsonDeser parseRfc3339 now key w).1 = Except.ok none ∧
    (offline_get_cache_entry jsonDeser parseRfc3339 now key w).2.db.cache.find?
      (fun r => r.key == key) = none := by
  unfold offline_get_cache_entry get_offline_db
  simp only [hrow, hresp, hexp, hparse]
  rw [if_pos hpast]
  exact ⟨rfl, find?_filter_ne_none w.db.cache key⟩

/-- C2 witness: the theorem evaluated on `c2World`, whose single row
expired at time 0, read at time 1. -/
theorem c2_expired_get_deletes_witness :
    (offline_get_cache_entry natDeser zeroParse 1 "k" c2World).1 = Except.ok none ∧
    (offline_get_cache_entry natDeser zeroParse 1 "k" c2World).2.db.cache.find?
      (fun r => r.key == "k") = none :=
  c2_expired_get_deletes natDeser zeroParse 1 0 "k" "2020-01-01T00:00:00Z" c2World c2Row 0
    rfl rfl rfl rfl (by decide)

/-- C3: for an entry without expiry whose response survives the
serialize/deserialize round trip, `set` then `get` on its key succeeds
and returns exactly the entry. -/
theorem c3_set_get_roundtrip {JVal : Type}
    (jsonSer : JVal → Option String) (jsonDeser : String → Option JVal)
    (parseRfc3339 : String → Option Int) (now : Int)
    (e : CacheEntry JVal) (w : World) (s : String)
    (hser : jsonSer e.response = some s)
    (hdeser : jsonDeser s = some e.response)
    (hexp : e.expires_at = none) :
    (offline_set_cache_entry jsonSer e w).1 = Except.ok () ∧
    (offline_get_cache_entry jsonDeser parseRfc3339 now e.key
      (offline_set_cache_entry jsonSer e w).2).1 = Except.ok (some e) := by
  obtain ⟨k, m, p, resp, ts, ex⟩ := e
  simp only at hser hdeser hexp
  subst hexp
  constructor
  · simp [offline_set_cache_entry, get_offline_db, hser]
  · have hfind := find?_insertOrReplaceCache w.db.cache (CacheRow.mk k m p s ts none)
    dsimp only at hfind
    simp [offline_set_cache_entry, offline_get_cache_entry, get_offline_db, hser, hdeser, hfind]

/-- C3 witness: the theorem evaluated on `c3Entry` over the empty
initial state with the decimal `Nat` serializer. -/
theorem c3_set_get_roundtrip_witness :
    (offline_set_cache_entry natSer c3Entry initWorld).1 = Except.ok () ∧
    (offline_get_cache_entry natParse noParse 0 c3Entry.key
      (offline_set_cache_entry natSer c3Entry initWorld).2).1 = Except.ok (some c3Entry) :=
  c3_set_get_roundtrip natSer natParse noParse 0 c3Entry initWorld ("5")
    (by decide) (by decide) rfl

/-- C9: a present `expires_at` TEXT that does not parse as RFC3339 is
silently ignored: the entry is returned as live, no error is produced,
and nothing is deleted. -/
theorem c9_unparseable_expiry_is_live {JVal : Type}
    (jsonDeser : String → Option JVal) (parseRfc3339 : String → Option Int) (now : Int)
    (key s : String) (w : World) (row : CacheRow) (v : JVal)
    (hrow : w.db.cache.find? (fun r => r.key == key) = some row)
    (hresp : jsonDeser row.response = some v)
    (hexp : row.expires_at = some s)
    (hparse : parseRfc3339 s = none) :
    (offline_get_cache_entry jsonDeser parseRfc3339 now key w).1 =
      Except.ok (some (CacheEntry.mk row.key row.method row.path v
        row.timestamp row.expires_at)) ∧
    (offline_get_cache_entry jsonDeser parseRfc3339 now key w).2.db = w.db := by
  unfold offline_get_cache_entry get_offline_db
  simp [hrow, hresp, hexp, hparse]

/-- C9 witness: the theorem evaluated on `c9World`, whose single row
carries the unparseable expiry TEXT "garbage". -/
theorem c9_unparseable_expiry_is_live_witness :
    (offline_get_cache_entry natDeser noParse 0 "k9" c9World).1 =
      Except.ok (some (CacheEntry.mk c9Row.key c9Row.method c9Row.path 0
        c9Row.timestamp c9Row.expires_at)) ∧
    (offline_get_cache_entry natDeser noParse 0 "k9" c9World).2.db = c9World.db :=
  c9_unparseable_expiry_is_live natDeser noParse 0 "k9" "garbage" c9World c9Row 0
    rfl rfl rfl rfl

/-- C5: enqueueing a request whose id already appears in the queue fails
with an error and leaves the database (in particular the original row)
unmodified. -/
theorem c5_duplicate_enqueue_error {JVal : Type}
    (jsonSer : JVal → Option String)
    (serHeaders : List (String × String) → Option String)
    (request : QueuedRequest JVal) (w : World) (row : QueueRow)
    (hmem : row ∈ w.db.queue) (hid : row.id = request.id) :
    (∃ msg, (offline_enqueue_request jsonSer serHeaders request w).1 = Except.error msg) ∧
    (offline_enqueue_request jsonSer serHeaders request w).2.db = w.db := by
  have hany : w.db.queue.any (fun r => r.id == request.id) = true :=
    List.any_eq_true.mpr ⟨row, hmem, by simp [hid]⟩
  unfold offline_enqueue_request get_offline_db
  cases hser : jsonSer request.payload with
  | none => exact ⟨⟨"Failed to serialize payload", by simp [hser]⟩, by simp [hser]⟩
  | some ps => exact ⟨⟨uniqueConstraintMsg, by simp [hser, hany]⟩, by simp [hser, hany]⟩

/-- C5 witness: the theorem evaluated on `qWorld`, which already holds a
row with id "q2", enqueueing `c5Request` with the same id. -/
theorem c5_duplicate_enqueue_error_witness :
    (∃ msg, (offline_enqueue_request natSer someHeadersSer c5Request qWorld).1 =
      Except.error msg) ∧
    (offline_enqueue_request natSer someHeadersSer c5Request qWorld).2.db = qWorld.db :=
  c5_duplicate_enqueue_error natSer someHeadersSer c5Request qWorld goodRow (by decide) rfl

/-- A corrupt payload anywhere among the rows makes the collection loop
fail with the payload read error. -/
theorem collectRows_error_of_bad {JVal : Type} (jsonDeser : String → Option JVal)
    (deserHeaders : String → Option (List (String × String)))
    (rs : List QueueRow) (hbad : ∃ r ∈ rs, jsonDeser r.payload = none) :
    collectRows jsonDeser deserHeaders rs =
      Except.error (invalidColumnTypeMsg 3 "payload") := by
  induction rs with
  | nil => simp at hbad
  | cons r rs ih =>
    obtain ⟨r₀, hr₀, hnone⟩ := hbad
    rcases List.mem_cons.mp hr₀ with heq | hmem
    · subst heq
      simp [collectRows, rowToRequest, hnone]
    · cases hfirst : jsonDeser r.payload with
      | none => simp [collectRows, rowToRequest, hfirst]
      | some v =>
        have hrest := ih ⟨r₀, hmem, hnone⟩
        simp [collectRows, rowToRequest, hfirst, hrest]

/-- When every payload deserializes, the collection loop succeeds,
preserves ids and creation times positionally, and converts each row by
the row-mapping closure. -/
theorem collectRows_ok_of_good {JVal : Type} (jsonDeser : String → Option JVal)
    (deserHeaders : String → Option (List (String × String)))
    (rs : List QueueRow) (hgood : ∀ r ∈ rs, (jsonDeser r.payload).isSome) :
    ∃ reqs, collectRows jsonDeser deserHeaders rs = Except.ok reqs ∧
      reqs.map (fun q => q.id) = rs.map (fun r => r.id) ∧
      reqs.map (fun q => q.created_at) = rs.map (fun r => r.created_at) ∧
      ∀ r ∈ rs, ∃ q ∈ reqs, rowToRequest jsonDeser deserHeaders r = Except.ok q := by
  induction rs with
  | nil => exact ⟨[], rfl, rfl, rfl, by simp⟩
  | cons r rs ih =>
    obtain ⟨v, hv⟩ := Option.isSome_iff_exists.mp (hgood r (List.mem_cons_self r rs))
    obtain ⟨reqs, hok, hids, hcreated, hconv⟩ :=
      ih (fun x hx => hgood x (List.mem_cons_of_mem r hx))
    refine ⟨QueuedRequest.mk r.id r.method r.path v
      (r.headers.bind (fun s => deserHeaders s)) r.created_at :: reqs, ?_, ?_, ?_, ?_⟩
    · simp [collectRows, rowToRequest, hv, hok]
    · simp [hids]
    · simp [hcreated]
    · intro x hx
      rcases List.mem_cons.mp hx with heq | hmem
      · subst heq
        exact ⟨_, List.mem_cons_self _ _, by simp [rowToRequest, hv]⟩
      · obtain ⟨q, hq, hconvq⟩ := hconv x hmem
        exact ⟨q, List.mem_cons_of_mem _ hq, hconvq⟩

/-- A successful collection preserves the rows' ids positionally. -/
theorem collectRows_ok_ids {JVal : Type} (jsonDeser : String → Option JVal)
    (deserHeaders : String → Option (List (String × String))) :
    ∀ (rs : List QueueRow) (reqs : List (QueuedRequest JVal)),
      collectRows jsonDeser deserHeaders rs = Except.ok reqs →
      reqs.map (fun q => q.id) = rs.map (fun r => r.id)
  | [], reqs, h => by
    simp [collectRows] at h
    subst h
    rfl
  | r :: rs, reqs, h => by
    cases hconv : rowToRequest jsonDeser deserHeaders r with
    | error e => simp [collectRows, hconv] at h
    | ok q =>
      cases hrest : collectRows jsonDeser deserHeaders rs with
      | error e => simp [collectRows, hconv, hrest] at h
      | ok qs =>
        simp only [collectRows, hconv, hrest] at h
        cases h
        have hid : q.id = r.id := by
          cases hjd : jsonDeser r.payload with
          | none => simp [rowToRequest, hjd] at hconv
          | some v =>
            simp only [rowToRequest, hjd] at hconv
            cases hconv
            rfl
        simp [hid, collectRows_ok_ids jsonDeser deserHeaders rs qs hrest]

/-- C1 counterexample: on `c1World`, whose queue holds exactly one
corrupt row (`badRow`) and one well-formed row (`goodRow`), listing
pending requests returns an error for the WHOLE call — it does not
return the well-formed remainder `[goodRequest]`. -/
theorem c1_counterexample :
    (offline_get_queued_requests goodDeser noHeadersDeser c1World).1 =
      Except.error (invalidColumnTypeMsg 3 "payload") ∧
    (offline_get_queued_requests goodDeser noHeadersDeser c1World).1 ≠
      Except.ok [goodRequest] := by
  refine ⟨rfl, fun h => ?_⟩
  rw [show (offline_get_queued_requests goodDeser noHeadersDeser c1World).1 =
    Except.error (invalidColumnTypeMsg 3 "payload") from rfl] at h
  exact Except.noConfusion h

/-- C1 amended: with exactly one corrupt payload row in the queue,
listing pending requests propagates the read error for the whole call —
the result is the row's read error, the well-formed rows are not
returned — and the database is not modified. -/
theorem c1_bad_row_fails_listing {JVal : Type} (jsonDeser : String → Option JVal)
    (deserHeaders : String → Option (List (String × String))) (w : World)
    (hbad : w.db.queue.countP (fun r => (jsonDeser r.payload).isNone) = 1) :
    (offline_get_queued_requests jsonDeser deserHeaders w).1 =
      Except.error (invalidColumnTypeMsg 3 "payload") ∧
    (offline_get_queued_requests jsonDeser deserHeaders w).2.db = w.db := by
  have hpos : 0 < w.db.queue.countP (fun r => (jsonDeser r.payload).isNone) := by omega
  obtain ⟨r₀, hmem, hnone⟩ := List.countP_pos_iff.mp hpos
  have herr := collectRows_error_of_bad jsonDeser deserHeaders
    (w.db.queue.insertionSort rleQ)
    ⟨r₀, (List.mem_insertionSort rleQ).mpr hmem, Option.isNone_iff_eq_none.mp hnone⟩
  exact ⟨herr, by simp [offline_get_queued_requests, get_offline_db]⟩

/-- C1 amended witness: the amended claim evaluated on `c1World`. -/
theorem c1_bad_row_fails_listing_witness :
    (offline_get_queued_requests goodDeser noHeadersDeser c1World).1 =
      Except.error (invalidColumnTypeMsg 3 "payload") ∧
    (offline_get_queued_requests goodDeser noHeadersDeser c1World).2.db = c1World.db :=
  c1_bad_row_fails_listing goodDeser noHeadersDeser c1World (by decide)

/-- Distinct strings with distinct code-point lists: `String.data` is
injective. -/
theorem stringData_inj {a b : String} (h : a.data = b.data) : a = b :=
  String.ext h

/-- Two distinct TEXT values related by the weak collation order are
related strictly. -/
theorem textLt_of_textLe_of_ne {a b : String} (h : textLe a b) (hne : a ≠ b) :
    textLt a b :=
  lt_of_le_of_ne h (fun hd => hne (stringData_inj hd))

/-- C4: when every stored payload deserializes and the creation times in
the queue are pairwise distinct (as for items enqueued with strictly
increasing `created_at`), listing pending requests succeeds, returns the
requests in strictly ascending `created_at` order regardless of the
order of the rows in the table, enumerates exactly the stored rows (a
permutation on ids, same length), and removes nothing. -/
theorem c4_listing_is_fifo {JVal : Type} (jsonDeser : String → Option JVal)
    (deserHeaders : String → Option (List (String × String))) (w : World)
    (hgood : ∀ r ∈ w.db.queue, (jsonDeser r.payload).isSome)
    (hdist : (w.db.queue.map (fun r => r.created_at)).Nodup) :
    ∃ reqs, (offline_get_queued_requests jsonDeser deserHeaders w).1 = Except.ok reqs ∧
      (reqs.map (fun q => q.created_at)).Pairwise textLt ∧
      (reqs.map (fun q => q.id)).Perm (w.db.queue.map (fun r => r.id)) ∧
      reqs.length = w.db.queue.length ∧
      (offline_get_queued_requests jsonDeser deserHeaders w).2.db = w.db := by
  have hperm : (w.db.queue.insertionSort rleQ).Perm w.db.queue :=
    List.perm_insertionSort rleQ _
  have hgood' : ∀ r ∈ w.db.queue.insertionSort rleQ, (jsonDeser r.payload).isSome :=
    fun r hr => hgood r ((List.mem_insertionSort rleQ).mp hr)
  obtain ⟨reqs, hok, hids, hcreated, _⟩ :=
    collectRows_ok_of_good jsonDeser deserHeaders _ hgood'
  refine ⟨reqs, ?_, ?_, ?_, ?_, ?_⟩
  · simpa [offline_get_queued_requests, get_offline_db] using hok
  · have hsorted : (w.db.queue.insertionSort rleQ).Sorted rleQ :=
      List.sorted_insertionSort rleQ _
    have hsorted' : ((w.db.queue.insertionSort rleQ).map
        (fun r => r.created_at)).Pairwise textLe := by
      rw [List.pairwise_map]
      exact hsorted
    have hnodup : ((w.db.queue.insertionSort rleQ).map
        (fun r => r.created_at)).Nodup := (hperm.map _).nodup_iff.mpr hdist
    rw [hcreated]
    exact (hsorted'.and hnodup).imp (fun hab => textLt_of_textLe_of_ne hab.1 hab.2)
  · rw [hids]
    exact hperm.map _
  · have hlen := congrArg List.length hids
    simp only [List.length_map] at hlen
    rw [hlen, hperm.length_eq]
  · simp [offline_get_queued_requests, get_offline_db]

/-- C4 witness: the theorem evaluated on `c1World` (two rows with
distinct creation times) under the all-accepting deserializer. -/
theorem c4_listing_is_fifo_witness :
    ∃ reqs, (offline_get_queued_requests natDeser noHeadersDeser c1World).1 =
        Except.ok reqs ∧
      (reqs.map (fun q => q.created_at)).Pairwise textLt ∧
      (reqs.map (fun q => q.id)).Perm (c1World.db.queue.map (fun r => r.id)) ∧
      reqs.length = c1World.db.queue.length ∧
      (offline_get_queued_requests natDeser noHeadersDeser c1World).2.db = c1World.db :=
  c4_listing_is_fifo natDeser noHeadersDeser c1World (by decide) (by decide)

/-- Deleting the rows matched by `p` shortens a table by the number of
matching rows. -/
theorem length_filter_not_add_countP {α : Type} (p : α → Bool) (l : List α) :
    (l.filter (fun a => !(p a))).length + l.countP p = l.length := by
  induction l with
  | nil => rfl
  | cons a l ih =>
    by_cases h : p a <;> simp [List.filter_cons, h, List.countP_cons, ← ih] <;> omega

/-- C8: absence is success and present ids are removed exactly.
(a) `get` on an absent key returns `Ok(None)`; (b) `dequeue` on any id
returns `Ok(())`, and on an absent id leaves the database unchanged;
(c) likewise `clear` on a cache key; (d) `dequeue` on a uniquely present
id shortens the queue by exactly one row, leaves no row with that id,
keeps every other row, and a subsequent successful listing contains no
request with that id. -/
theorem c8_absence_success_dequeue_removes :
    (∀ {JVal : Type} (jsonDeser : String → Option JVal)
       (parseRfc3339 : String → Option Int) (now : Int) (key : String) (w : World),
       w.db.cache.find? (fun r => r.key == key) = none →
       (offline_get_cache_entry jsonDeser parseRfc3339 now key w).1 = Except.ok none) ∧
    (∀ (id : String) (w : World),
       (offline_dequeue_request id w).1 = Except.ok () ∧
       ((∀ r ∈ w.db.queue, r.id ≠ id) → (offline_dequeue_request id w).2.db = w.db)) ∧
    (∀ (key : String) (w : World),
       (offline_clear_cache_entry key w).1 = Except.ok () ∧
       ((∀ r ∈ w.db.cache, r.key ≠ key) → (offline_clear_cache_entry key w).2.db = w.db)) ∧
    (∀ (id : String) (w : World),
       w.db.queue.countP (fun r => r.id == id) = 1 →
       (offline_dequeue_request id w).2.db.queue.length + 1 = w.db.queue.length ∧
       (∀ r ∈ (offline_dequeue_request id w).2.db.queue, r.id ≠ id) ∧
       (∀ r ∈ w.db.queue, r.id ≠ id → r ∈ (offline_dequeue_request id w).2.db.queue) ∧
       (∀ {JVal : Type} (jsonDeser : String → Option JVal)
          (deserHeaders : String → Option (List (String × String)))
          (reqs : List (QueuedRequest JVal)),
          (offline_get_queued_requests jsonDeser deserHeaders
            (offline_dequeue_request id w).2).1 = Except.ok reqs →
          ∀ q ∈ reqs, q.id ≠ id)) := by
  refine ⟨?_, ?_, ?_, ?_⟩
  · intro JVal jsonDeser parseRfc3339 now key w h
    simp [offline_get_cache_entry, get_offline_db, h]
  · intro id w
    refine ⟨rfl, fun h => ?_⟩
    have : w.db.queue.filter (fun r => r.id != id) = w.db.queue :=
      List.filter_eq_self.mpr (fun r hr => by simp [bne_iff_ne, h r hr])
    simp [offline_dequeue_request, get_offline_db, this]
  · intro key w
    refine ⟨rfl, fun h => ?_⟩
    have : w.db.cache.filter (fun r => r.key != key) = w.db.cache :=
      List.filter_eq_self.mpr (fun r hr => by simp [bne_iff_ne, h r hr])
    simp [offline_clear_cache_entry, get_offline_db, this]
  · intro id w hcount
    have hqueue : (offline_dequeue_request id w).2.db.queue =
        w.db.queue.filter (fun r => r.id != id) := rfl
    refine ⟨?_, ?_, ?_, ?_⟩
    · rw [hqueue]
      have hlen := length_filter_not_add_countP (fun r : QueueRow => r.id == id) w.db.queue
      rw [hcount] at hlen
      have heq : w.db.queue.filter (fun r => r.id != id) =
          w.db.queue.filter (fun r => !(r.id == id)) := rfl
      rw [heq]
      exact hlen
    · intro r hr
      rw [hqueue] at hr
      have := (List.mem_filter.mp hr).2
      simpa [bne_iff_ne] using this
    · intro r hr hne
      rw [hqueue]
      exact List.mem_filter.mpr ⟨hr, by simp [bne_iff_ne, hne]⟩
    · intro JVal jsonDeser deserHeaders reqs hok q hq
      have hok' : collectRows jsonDeser deserHeaders
          (((offline_dequeue_request id w).2.db.queue).insertionSort rleQ) =
          Except.ok reqs := hok
      have hids := collectRows_ok_ids jsonDeser deserHeaders _ reqs hok'
      have hmem : q.id ∈ reqs.map (fun q => q.id) := List.mem_map_of_mem _ hq
      rw [hids] at hmem
      obtain ⟨r, hr, hrid⟩ := List.mem_map.mp hmem
      have hr' : r ∈ (offline_dequeue_request id w).2.db.queue :=
        (List.mem_insertionSort rleQ).mp hr
      rw [hqueue] at hr'
      have := (List.mem_filter.mp hr').2
      rw [← hrid]
      simpa [bne_iff_ne] using this

/-- C8 witness: the binder-free conclusions of the theorem evaluated on
concrete states — absent key "absent" on the fresh state, absent
id/key no-ops on `c1World`/`c2World`, and removal of the uniquely
present id "q1" from `c1World`. -/
theorem c8_absence_success_dequeue_removes_witness :
    (offline_get_cache_entry natDeser noParse 0 "absent" initWorld).1 = Except.ok none ∧
    (offline_dequeue_request ("absent") c1World).1 = Except.ok () ∧
    (offline_dequeue_request ("absent") c1World).2.db = c1World.db ∧
    (offline_clear_cache_entry ("absent") c2World).1 = Except.ok () ∧
    (offline_clear_cache_entry ("absent") c2World).2.db = c2World.db ∧
    (offline_dequeue_request ("q1") c1World).2.db.queue.length + 1 =
      c1World.db.queue.length :=
  ⟨c8_absence_success_dequeue_removes.1 natDeser noParse 0 "absent" initWorld rfl,
   (c8_absence_success_dequeue_removes.2.1 ("absent") c1World).1,
   (c8_absence_success_dequeue_removes.2.1 ("absent") c1World).2 (by decide),
   (c8_absence_success_dequeue_removes.2.2.1 ("absent") c2World).1,
   (c8_absence_success_dequeue_removes.2.2.1 ("absent") c2World).2 (by decide),
   (c8_absence_success_dequeue_removes.2.2.2 ("q1") c1World (by decide)).1⟩

/-- C10: header corruption is silently tolerated.  (a) The row-mapping
closure of the listing turns a headers TEXT that fails to deserialize
into `headers = none` with no error for the row; (b) a listing whose
payloads all deserialize succeeds and contains that request with
`headers = none`; (c) enqueueing a request whose headers map fails to
serialize succeeds and stores the row with NULL headers. -/
theorem c10_headers_silently_tolerated :
    (∀ {JVal : Type} (jsonDeser : String → Option JVal)
       (deserHeaders : String → Option (List (String × String)))
       (row : QueueRow) (s : String) (v : JVal),
       row.headers = some s → deserHeaders s = none → jsonDeser row.payload = some v →
       rowToRequest jsonDeser deserHeaders row =
         Except.ok (QueuedRequest.mk row.id row.method row.path v none row.created_at)) ∧
    (∀ {JVal : Type} (jsonDeser : String → Option JVal)
       (deserHeaders : String → Option (List (String × String)))
       (w : World) (row : QueueRow) (s : String),
       row ∈ w.db.queue → row.headers = some s → deserHeaders s = none →
       (∀ r ∈ w.db.queue, (jsonDeser r.payload).isSome) →
       ∃ reqs, (offline_get_queued_requests jsonDeser deserHeaders w).1 =
           Except.ok reqs ∧
         ∃ q ∈ reqs, q.id = row.id ∧ q.headers = none) ∧
    (∀ {JVal : Type} (jsonSer : JVal → Option String)
       (serHeaders : List (String × String) → Option String)
       (request : QueuedRequest JVal) (w : World)
       (hs : List (String × String)) (ps : String),
       request.headers = some hs → serHeaders hs = none →
       jsonSer request.payload = some ps →
       w.db.queue.any (fun r => r.id == request.id) = false →
       (offline_enqueue_request jsonSer serHeaders request w).1 = Except.ok () ∧
       (offline_enqueue_request jsonSer serHeaders request w).2.db.queue =
         w.db.queue ++ [QueueRow.mk request.id request.method request.path ps none
           request.created_at]) := by
  refine ⟨?_, ?_, ?_⟩
  · intro JVal jsonDeser deserHeaders row s v hh hdh hjd
    simp [rowToRequest, hjd, hh, hdh]
  · intro JVal jsonDeser deserHeaders w row s hmem hh hdh hgood
    have hgood' : ∀ r ∈ w.db.queue.insertionSort rleQ, (jsonDeser r.payload).isSome :=
      fun r hr => hgood r ((List.mem_insertionSort rleQ).mp hr)
    obtain ⟨reqs, hok, _, _, hconv⟩ :=
      collectRows_ok_of_good jsonDeser deserHeaders _ hgood'
    obtain ⟨q, hq, hconvq⟩ := hconv row ((List.mem_insertionSort rleQ).mpr hmem)
    obtain ⟨v, hv⟩ := Option.isSome_iff_exists.mp (hgood row hmem)
    refine ⟨reqs, by simpa [offline_get_queued_requests, get_offline_db] using hok,
      q, hq, ?_⟩
    simp only [rowToRequest, hv, hh, hdh] at hconvq
    cases hconvq
    exact ⟨rfl, by simp [hh, hdh]⟩
  · intro JVal jsonSer serHeaders request w hs ps hh hsh hser hany
    constructor
    · simp [offline_enqueue_request, get_offline_db, hser, hany]
    · simp [offline_enqueue_request, get_offline_db, hser, hany, hh, hsh]

/-- C10 witness: the row-mapping conclusion on `headersRow` (whose
headers TEXT is rejected) and the enqueue conclusion on `c10Request`
(whose headers map fails to serialize), both at concrete inputs. -/
theorem c10_headers_silently_tolerated_witness :
    rowToRequest goodDeser noHeadersDeser headersRow =
      Except.ok (QueuedRequest.mk headersRow.id headersRow.method headersRow.path 7
        none headersRow.created_at) ∧
    (offline_enqueue_request natSer noHeadersSer c10Request initWorld).1 =
      Except.ok () ∧
    (offline_enqueue_request natSer noHeadersSer c10Request initWorld).2.db.queue =
      initWorld.db.queue ++ [QueueRow.mk c10Request.id c10Request.method c10Request.path
        "4" none c10Request.created_at] :=
  ⟨c10_headers_silently_tolerated.1 goodDeser noHeadersDeser headersRow ("not-a-map") 7
     rfl rfl rfl,
   (c10_headers_silently_tolerated.2.2 natSer noHeadersSer c10Request initWorld
     [("a", "b")] "4" rfl rfl (by decide) rfl).1,
   (c10_headers_silently_tolerated.2.2 natSer noHeadersSer c10Request initWorld
     [("a", "b")] "4" rfl rfl (by decide) rfl).2⟩

/-- C6 counterexample: the claim that no operation opens its own
separate connection fails at the very first operation — one
`offline_get_cache_entry` call on the fresh state raises the opened
connection count from 0 to 1, because `get_offline_db` runs
`Connection::open` inside the operation itself. -/
theorem c6_counterexample :
    (offline_get_cache_entry natDeser noParse 0 "k" initWorld).2.openConns ≠
      initWorld.openConns := by decide

/-- C6 amended: every Cache and Queue operation opens its own fresh
connection through `get_offline_db` — each call increases the number of
opened connections by exactly one, on every control-flow path.  No
shared mutex-guarded connection is used by these commands (the
`Database` wrapper of database.rs holding a `Mutex<Connection>` is dead
code for the offline subsystem). -/
theorem c6_each_op_opens_own_connection :
    (∀ {JVal : Type} (jsonDeser : String → Option JVal)
       (parseRfc3339 : String → Option Int) (now : Int) (key : String) (w : World),
       (offline_get_cache_entry jsonDeser parseRfc3339 now key w).2.openConns =
         w.openConns + 1) ∧
    (∀ {JVal : Type} (jsonSer : JVal → Option String) (entry : CacheEntry JVal)
       (w : World),
       (offline_set_cache_entry jsonSer entry w).2.openConns = w.openConns + 1) ∧
    (∀ (key : String) (w : World),
       (offline_clear_cache_entry key w).2.openConns = w.openConns + 1) ∧
    (∀ (w : World), (offline_clear_all_cache w).2.openConns = w.openConns + 1) ∧
    (∀ {JVal : Type} (jsonSer : JVal → Option String)
       (serHeaders : List (String × String) → Option String)
       (request : QueuedRequest JVal) (w : World),
       (offline_enqueue_request jsonSer serHeaders request w).2.openConns =
         w.openConns + 1) ∧
    (∀ {JVal : Type} (jsonDeser : String → Option JVal)
       (deserHeaders : String → Option (List (String × String))) (w : World),
       (offline_get_queued_requests jsonDeser deserHeaders w).2.openConns =
         w.openConns + 1) ∧
    (∀ (id : String) (w : World),
       (offline_dequeue_request id w).2.openConns = w.openConns + 1) ∧
    (∀ (w : World), (offline_clear_queue w).2.openConns = w.openConns + 1) := by
  refine ⟨?_, ?_, fun key w => rfl, fun w => rfl, ?_, fun jd dh w => rfl,
    fun id w => rfl, fun w => rfl⟩
  · intro JVal jsonDeser parseRfc3339 now key w
    unfold offline_get_cache_entry get_offline_db
    rcases hf : w.db.cache.find? (fun r => r.key == key) with _ | row
    · simp [hf]
    · rcases hd : jsonDeser row.response with _ | v
      · simp [hf, hd]
      · rcases he : row.expires_at with _ | s
        · simp [hf, hd, he]
        · rcases hp : parseRfc3339 s with _ | t
          · simp [hf, hd, he, hp]
          · by_cases hlt : t < now <;> simp [hf, hd, he, hp, hlt]
  · intro JVal jsonSer entry w
    rcases hs : jsonSer entry.response with _ | s <;>
      simp [offline_set_cache_entry, get_offline_db, hs]
  · intro JVal jsonSer serHeaders request w
    rcases hs : jsonSer request.payload with _ | s
    · simp [offline_enqueue_request, get_offline_db, hs]
    · by_cases h : w.db.queue.any (fun r => r.id == request.id) <;>
        simp [offline_enqueue_request, get_offline_db, hs, h]

/-- Row deletion keeps the cache keys pairwise distinct. -/
theorem nodup_keys_filter (cache : List CacheRow) (p : CacheRow → Bool)
    (h : (cache.map (fun r => r.key)).Nodup) :
    ((cache.filter p).map (fun r => r.key)).Nodup :=
  h.sublist ((List.filter_sublist cache).map _)

/-- Upserting keeps the cache keys pairwise distinct. -/
theorem nodup_keys_insertOrReplace (cache : List CacheRow) (row : CacheRow)
    (h : (cache.map (fun r => r.key)).Nodup) :
    ((insertOrReplaceCache cache row).map (fun r => r.key)).Nodup := by
  unfold insertOrReplaceCache
  rw [List.map_append]
  refine List.Nodup.append (nodup_keys_filter cache _ h) (by simp) ?_
  intro a ha hb
  obtain ⟨r, hr, hkey⟩ := List.mem_map.mp ha
  have hne := (List.mem_filter.mp hr).2
  simp only [bne_iff_ne, ne_eq] at hne
  simp only [List.map_cons, List.map_nil, List.mem_singleton] at hb
  exact hne (hkey.trans hb)

/-- After an upsert, exactly one row carries the upserted key. -/
theorem countP_insertOrReplace (cache : List CacheRow) (row : CacheRow) :
    (insertOrReplaceCache cache row).countP (fun r => r.key == row.key) = 1 := by
  unfold insertOrReplaceCache
  rw [List.countP_append]
  have h0 : (cache.filter (fun r => r.key != row.key)).countP
      (fun r => r.key == row.key) = 0 := by
    rw [List.countP_eq_zero]
    intro a ha
    have hne := (List.mem_filter.mp ha).2
    simp only [bne_iff_ne, ne_eq] at hne
    simp [hne]
  rw [h0]
  simp [List.countP_cons]

/-- The cache after a `get` is either untouched or the result of the
lazy-expiry deletion for the requested key. -/
theorem get_cache_entry_cache_cases {JVal : Type} (jsonDeser : String → Option JVal)
    (parseRfc3339 : String → Option Int) (now : Int) (key : String) (w : World) :
    (offline_get_cache_entry jsonDeser parseRfc3339 now key w).2.db.cache =
      w.db.cache ∨
    (offline_get_cache_entry jsonDeser parseRfc3339 now key w).2.db.cache =
      w.db.cache.filter (fun r => r.key != key) := by
  unfold offline_get_cache_entry get_offline_db
  rcases hf : w.db.cache.find? (fun r => r.key == key) with _ | row
  · left
    simp [hf]
  · rcases hd : jsonDeser row.response with _ | v
    · left
      simp [hf, hd]
    · rcases he : row.expires_at with _ | s
      · left
        simp [hf, hd, he]
      · rcases hp : parseRfc3339 s with _ | t
        · left
          simp [hf, hd, he, hp]
        · by_cases hlt : t < now
          · right
            simp [hf, hd, he, hp, hlt]
          · left
            simp [hf, hd, he, hp, hlt]

/-- The cache after a `set` is either untouched (serialization failure)
or an upsert of the serialized row. -/
theorem set_cache_entry_cache_cases {JVal : Type} (jsonSer : JVal → Option String)
    (e : CacheEntry JVal) (w : World) :
    (offline_set_cache_entry jsonSer e w).2.db.cache = w.db.cache ∨
    ∃ row, (offline_set_cache_entry jsonSer e w).2.db.cache =
      insertOrReplaceCache w.db.cache row := by
  rcases hs : jsonSer e.response with _ | s
  · left
    simp [offline_set_cache_entry, get_offline_db, hs]
  · right
    exact ⟨CacheRow.mk e.key e.method e.path s e.timestamp e.expires_at,
      by simp [offline_set_cache_entry, get_offline_db, hs]⟩

/-- Enqueueing never touches the cache table. -/
theorem enqueue_cache_eq {JVal : Type} (jsonSer : JVal → Option String)
    (serHeaders : List (String × String) → Option String)
    (request : QueuedRequest JVal) (w : World) :
    (offline_enqueue_request jsonSer serHeaders request w).2.db.cache = w.db.cache := by
  unfold offline_enqueue_request get_offline_db
  rcases hs : jsonSer request.payload with _ | s
  · simp [hs]
  · by_cases h : w.db.queue.any (fun r => r.id == request.id) <;> simp [hs, h]

/-- C7: in every reachable state the cache holds at most one live row
per key (the key column is pairwise distinct), and writing a key that
already exists fully replaces the prior entry: after two sets of the
same key, exactly one row carries the key and the lookup returns the
second write's row (no merge). -/
theorem c7_unique_key_and_full_replace :
    (∀ w, Reachable w → (w.db.cache.map (fun r => r.key)).Nodup) ∧
    (∀ (JVal : Type) (jsonSer : JVal → Option String) (e₁ e₂ : CacheEntry JVal)
       (w : World) (s₁ s₂ : String),
       jsonSer e₁.response = some s₁ → jsonSer e₂.response = some s₂ →
       e₁.key = e₂.key →
       ((offline_set_cache_entry jsonSer e₂
           (offline_set_cache_entry jsonSer e₁ w).2).2.db.cache.countP
         (fun r => r.key == e₂.key) = 1 ∧
        (offline_set_cache_entry jsonSer e₂
           (offline_set_cache_entry jsonSer e₁ w).2).2.db.cache.find?
         (fun r => r.key == e₂.key) =
         some (CacheRow.mk e₂.key e₂.method e₂.path s₂ e₂.timestamp e₂.expires_at))) := by
  constructor
  · intro w h
    induction h with
    | init => simp [initWorld]
    | get_cache jsonDeser parseRfc3339 now key h ih =>
      rcases get_cache_entry_cache_cases jsonDeser parseRfc3339 now key _ with heq | heq <;>
        rw [heq]
      · exact ih
      · exact nodup_keys_filter _ _ ih
    | set_cache jsonSer entry h ih =>
      rcases set_cache_entry_cache_cases jsonSer entry _ with heq | ⟨row, heq⟩ <;> rw [heq]
      · exact ih
      · exact nodup_keys_insertOrReplace _ _ ih
    | clear_cache key h ih => exact nodup_keys_filter _ _ ih
    | clear_all_cache h ih => simp [offline_clear_all_cache, get_offline_db]
    | enqueue jsonSer serHeaders request h ih =>
      rw [enqueue_cache_eq]
      exact ih
    | get_queued jsonDeser deserHeaders h ih => exact ih
    | dequeue id h ih => exact ih
    | clear_queue h ih => exact ih
  · intro JVal jsonSer e₁ e₂ w s₁ s₂ h1 h2 hkey
    obtain ⟨k1, m1, p1, r1, t1, x1⟩ := e₁
    obtain ⟨k2, m2, p2, r2, t2, x2⟩ := e₂
    simp only at h1 h2 hkey
    subst hkey
    have hcache : (offline_set_cache_entry jsonSer (CacheEntry.mk k1 m2 p2 r2 t2 x2)
        (offline_set_cache_entry jsonSer (CacheEntry.mk k1 m1 p1 r1 t1 x1) w).2).2.db.cache =
        insertOrReplaceCache
          (insertOrReplaceCache w.db.cache (CacheRow.mk k1 m1 p1 s₁ t1 x1))
          (CacheRow.mk k1 m2 p2 s₂ t2 x2) := by
      simp [offline_set_cache_entry, get_offline_db, h1, h2]
    constructor
    · have hc := countP_insertOrReplace
        (insertOrReplaceCache w.db.cache (CacheRow.mk k1 m1 p1 s₁ t1 x1))
        (CacheRow.mk k1 m2 p2 s₂ t2 x2)
      dsimp only at hc ⊢
      rw [hcache]
      exact hc
    · have hf := find?_insertOrReplaceCache
        (insertOrReplaceCache w.db.cache (CacheRow.mk k1 m1 p1 s₁ t1 x1))
        (CacheRow.mk k1 m2 p2 s₂ t2 x2)
      dsimp only at hf ⊢
      rw [hcache]
      exact hf

/-- C7 witness: the invariant at the (reachable) initial state, and the
replacement behaviour for the two concrete writes `c7Entry1` then
`c7Entry2` to the key "dup" starting from the initial state. -/
theorem c7_unique_key_and_full_replace_witness :
    ((initWorld.db.cache.map (fun r => r.key)).Nodup) ∧
    ((offline_set_cache_entry natSer c7Entry2
        (offline_set_cache_entry natSer c7Entry1 initWorld).2).2.db.cache.countP
      (fun r => r.key == c7Entry2.key) = 1 ∧
     (offline_set_cache_entry natSer c7Entry2
        (offline_set_cache_entry natSer c7Entry1 initWorld).2).2.db.cache.find?
      (fun r => r.key == c7Entry2.key) =
      some (CacheRow.mk c7Entry2.key c7Entry2.method c7Entry2.path ("2")
        c7Entry2.timestamp c7Entry2.expires_at)) :=
  ⟨c7_unique_key_and_full_replace.1 initWorld Reachable.init,
   c7_unique_key_and_full_replace.2 Nat natSer c7Entry1 c7Entry2 initWorld ("1") ("2")
     (by decide) (by decide) rfl⟩

end LeavePortal.Offline
